import Mathlib

/-!
Shallow embedding of the offline operation-queue subsystem of
GreenSentinel-Citoyen (`src/services/offline/queueManager.js`).

The JavaScript module keeps a queue of deferred remote operations in
`localStorage` under one key, together with two module-level booleans
(`isProcessing`, `networkListenerActive`).  We embed:

  * a `QueueItem` record mirroring the object literal built in
    `queueOperation`;
  * a `Store` mirroring the `localStorage` slot: its possibly-absent
    contents plus a flag saying whether `setItem` throws (quota errors);
  * a `ModuleState` holding the store and the two module booleans;
  * the functions `getQueue`, `saveQueue`, `generateId`,
    `queueOperation`, `processQueue`, `getQueueStatus`,
    `setupNetworkListener`, each translated clause by clause.

External collaborators are passed as parameters: `isAuthenticated()` as a
boolean `auth`, `Date.now()` as a natural `now`, the random suffix drawn
by `Math.random().toString(36).substr(2, 9)` as a string, and the network
executor reached through `processQueueItem` as
`exec : QueueItem -> Except String Unit` (the `Except.error` message being
the thrown error's `message`).
-/

namespace GreenSentinel

/-- The `status` field of a queue item: `'pending' | 'completed' | 'failed'`. -/
inductive Status where
| pending
| completed
| failed
deriving DecidableEq, Repr

/-- The object literal created in `queueOperation` (queueManager.js:31-39),
as later mutated by `processQueue`.  The payload `data` is opaque to the
queue; we carry it as an uninterpreted string.  `lastError` is absent at
creation and set only by a failing processing attempt. -/
structure QueueItem where
  id : String
  resource : String
  operation : String
  data : String
  timestamp : Nat
  attempts : Nat
  status : Status
  lastError : Option String
deriving DecidableEq, Repr

/-- The `localStorage` slot under `QUEUE_STORAGE_KEY`.  `contents = none`
models an absent (or unparseable) entry.  `writeFails = true` models a
`setItem` that throws (e.g. quota exceeded). -/
structure Store where
  contents : Option (List QueueItem)
  writeFails : Bool
deriving DecidableEq, Repr

/-- The module-level mutable state of queueManager.js: the storage slot and
the two booleans declared at lines 15-16. -/
structure ModuleState where
  store : Store
  isProcessing : Bool
  networkListenerActive : Bool
deriving DecidableEq, Repr

/-- `getQueue` (queueManager.js:71-79): parse the stored JSON, and on an
absent entry or any parse error return the empty array. -/
def getQueue (s : Store) : List QueueItem :=
  match s.contents with
  | some q => q
  | none => []

/-- `saveQueue` (queueManager.js:85-91): `localStorage.setItem` inside a
`try`/`catch` whose handler only logs.  A failing write therefore leaves
the stored contents unchanged and propagates nothing to the caller. -/
def saveQueue (queue : List QueueItem) (s : Store) : Store :=
  if s.writeFails then s else { s with contents := some queue }

/-- `generateId` (queueManager.js:246-248): the literal prefix `queue_`
concatenated with the 9-character suffix drawn from `Math.random()`. -/
def generateId (suffix : String) : String :=
  "queue_" ++ suffix

/-- `setupNetworkListener` (queueManager.js:230-240): registers the
`online` listener once; afterwards `networkListenerActive` is true. -/
def setupNetworkListener (s : ModuleState) : ModuleState :=
  if s.networkListenerActive then s else { s with networkListenerActive := true }

/-- The object returned by `queueOperation` (queueManager.js:54-60). -/
structure QueueResponse where
  success : Bool
  id : String
  message : String
  queuedOperation : QueueItem
  offline : Bool
deriving DecidableEq, Repr

/-- `queueOperation` (queueManager.js:25-65): read the queue, build the new
item, push it, save, arm the network listener, and return the
success-shaped response.  `now` is `Date.now()` and `suffix` the random
suffix consumed by `generateId`.  No step of the body throws (`getQueue`
and `saveQueue` trap their own errors), so the outer `catch` is dead and
the function is total. -/
def queueOperation (resource operation data : String) (now : Nat)
    (suffix : String) (s : ModuleState) : QueueResponse × ModuleState :=
  let queue := getQueue s.store
  let queueItem : QueueItem :=
    { id := generateId suffix
      resource := resource
      operation := operation
      data := data
      timestamp := now
      attempts := 0
      status := Status.pending
      lastError := none }
  let queue' := queue ++ [queueItem]
  let store' := saveQueue queue' s.store
  let s' := setupNetworkListener { s with store := store' }
  ({ success := true
     id := queueItem.id
     message := "Operation queued for processing when online"
     queuedOperation := queueItem
     offline := true }, s')

/-- One iteration of the `for` loop of `processQueue`
(queueManager.js:119-145) on a single item: skip it when already
`completed`; otherwise run the executor, and on success mark it
`completed`, on failure increment `attempts`, record `lastError`, and mark
it `failed` once `attempts >= 3`. -/
def runItem (exec : QueueItem → Except String Unit) (item : QueueItem) : QueueItem :=
  if item.status = Status.completed then item
  else
    match exec item with
    | Except.ok _ => { item with status := Status.completed }
    | Except.error msg =>
        let a := item.attempts + 1
        { item with
            attempts := a
            lastError := some msg
            status := if 3 ≤ a then Status.failed else item.status }

/-- The `successCount` contribution of one loop iteration. -/
def itemSucc (exec : QueueItem → Except String Unit) (item : QueueItem) : Nat :=
  if item.status = Status.completed then 0
  else
    match exec item with
    | Except.ok _ => 1
    | Except.error _ => 0

/-- The `failureCount` contribution of one loop iteration (incremented only
when the failing item crosses the attempt ceiling). -/
def itemFail (exec : QueueItem → Except String Unit) (item : QueueItem) : Nat :=
  if item.status = Status.completed then 0
  else
    match exec item with
    | Except.ok _ => 0
    | Except.error _ => if 3 ≤ item.attempts + 1 then 1 else 0

/-- The whole `for` loop of `processQueue` (queueManager.js:119-145):
visits the items in index order, returning the mutated queue together
with `successCount` and `failureCount`. -/
def processPass (exec : QueueItem → Except String Unit) :
    List QueueItem → List QueueItem × Nat × Nat
  | [] => ([], 0, 0)
  | item :: rest =>
      let rec' := processPass exec rest
      (runItem exec item :: rec'.1,
       itemSucc exec item + rec'.2.1,
       itemFail exec item + rec'.2.2)

/-- The sweep predicate of queueManager.js:149-151: keep an item when
`item.status !== 'completed' || item.timestamp > oneDayAgo`, where
`oneDayAgo = Date.now() - 24*60*60*1000` (integer arithmetic: JS numbers
go negative, so the comparison is over `Int`). -/
def sweepKeep (now : Nat) (item : QueueItem) : Bool :=
  item.status ≠ Status.completed || ((now : Int) - 86400000 < (item.timestamp : Int))

/-- The expiry sweep (queueManager.js:147-151): filter with `sweepKeep`. -/
def sweep (now : Nat) (queue : List QueueItem) : List QueueItem :=
  queue.filter (sweepKeep now)

/-- The value returned by `processQueue`: `{processed: 0, skipped: true}`,
`{processed: 0, message: 'Queue is empty'}`, or
`{processed, failed, remaining}`.  (The `catch` branch returning
`{error}` is unreachable in the embedding: every inner step is total.) -/
inductive ProcessResult where
| skipped
| emptyQueue
| done (processed : Nat) (failed : Nat) (remaining : Nat)
deriving DecidableEq, Repr

/-- `processQueue` (queueManager.js:97-168).  `auth` is the value of
`isAuthenticated()`, `exec` the behaviour of `processQueueItem` on each
item during this run, `now` the value of `Date.now()` at the sweep.
The `finally` clause clears `isProcessing` on every path that set it. -/
def processQueue (auth : Bool) (exec : QueueItem → Except String Unit)
    (now : Nat) (s : ModuleState) : ProcessResult × ModuleState :=
  if s.isProcessing || !auth then (ProcessResult.skipped, s)
  else
    let queue := getQueue s.store
    if queue.length = 0 then
      (ProcessResult.emptyQueue, { s with isProcessing := false })
    else
      let passed := processPass exec queue
      let filteredQueue := sweep now passed.1
      let store' := saveQueue filteredQueue s.store
      (ProcessResult.done passed.2.1 passed.2.2
        (filteredQueue.filter (fun item => item.status = Status.pending)).length,
       { s with store := store', isProcessing := false })

/-- `getQueueStatus` (queueManager.js:254-268). -/
structure QueueStatus where
  total : Nat
  pending : Nat
  completed : Nat
  failed : Nat
  isProcessing : Bool
deriving DecidableEq, Repr

/-- `getQueueStatus` (queueManager.js:254-268): counts by status plus the
in-progress flag. -/
def getQueueStatus (s : ModuleState) : QueueStatus :=
  let queue := getQueue s.store
  { total := queue.length
    pending := (queue.filter (fun item => item.status = Status.pending)).length
    completed := (queue.filter (fun item => item.status = Status.completed)).length
    failed := (queue.filter (fun item => item.status = Status.failed)).length
    isProcessing := s.isProcessing }

/-- A concrete item that has exhausted its retry budget: `status = failed`,
`attempts = 3`, as left by three failing attempts. -/
def exhaustedItem : QueueItem :=
  { id := "queue_a", resource := "reports", operation := "create",
    data := "d", timestamp := 0, attempts := 3, status := Status.failed,
    lastError := some "previous" }

/-- A concrete freshly-enqueued pending item. -/
def freshItem : QueueItem :=
  { id := "queue_c", resource := "reports", operation := "create",
    data := "d", timestamp := 0, attempts := 0, status := Status.pending,
    lastError := none }

/-- A concrete pending item that already failed once. -/
def retriedItem : QueueItem :=
  { id := "queue_b", resource := "events", operation := "register",
    data := "e1", timestamp := 5, attempts := 1, status := Status.pending,
    lastError := some "err" }

/-- A concrete completed item whose timestamp is far in the past. -/
def staleItem : QueueItem :=
  { id := "queue_d", resource := "reports", operation := "create",
    data := "old", timestamp := 0, attempts := 1, status := Status.completed,
    lastError := none }

/-- A module state holding exactly the given items, with a healthy store and
both module flags clear. -/
def idleState (items : List QueueItem) : ModuleState :=
  { store := { contents := some items, writeFails := false },
    isProcessing := false, networkListenerActive := false }

/-- A module state holding exactly the given items, whose store rejects
every write. -/
def fullStoreState (items : List QueueItem) : ModuleState :=
  { store := { contents := some items, writeFails := true },
    isProcessing := false, networkListenerActive := false }

/-- One JavaScript primitive value occurring in the queue manager's objects. -/
inductive JsAtom where
| str (s : String)
| num (n : Int)
| bool (b : Bool)
deriving DecidableEq, Repr

/-- A field value of an object the module returns: a primitive, or a nested
plain object whose own fields are primitives. -/
inductive JsField where
| atom (a : JsAtom)
| obj (fields : List (String × JsAtom))
deriving DecidableEq, Repr

/-- The `status` strings of queueManager.js. -/
def statusToJs : Status → JsAtom
| Status.pending => JsAtom.str "pending"
| Status.completed => JsAtom.str "completed"
| Status.failed => JsAtom.str "failed"

/-- A QueueItem as the JavaScript object literal of queueManager.js:31-39
(the `lastError` property exists only once a failed attempt set it). -/
def queueItemFields (item : QueueItem) : List (String × JsAtom) :=
  [("id", JsAtom.str item.id),
   ("resource", JsAtom.str item.resource),
   ("operation", JsAtom.str item.operation),
   ("data", JsAtom.str item.data),
   ("timestamp", JsAtom.num (item.timestamp : Int)),
   ("attempts", JsAtom.num (item.attempts : Int)),
   ("status", statusToJs item.status)] ++
  (match item.lastError with
   | none => []
   | some e => [("lastError", JsAtom.str e)])

/-- A QueueItem as a top-level JavaScript value. -/
def queueItemToJs (item : QueueItem) : List (String × JsField) :=
  (queueItemFields item).map (fun f => (f.1, JsField.atom f.2))

/-- The value `queueOperation` returns, as the JavaScript object literal of
queueManager.js:54-60. -/
def responseToJs (r : QueueResponse) : List (String × JsField) :=
  [("success", JsField.atom (JsAtom.bool r.success)),
   ("id", JsField.atom (JsAtom.str r.id)),
   ("message", JsField.atom (JsAtom.str r.message)),
   ("queuedOperation", JsField.obj (queueItemFields r.queuedOperation)),
   ("offline", JsField.atom (JsAtom.bool r.offline))]

/-- The ids produced over a store lifetime whose successive random suffix
draws are `suffixes`. -/
def generatedIds (suffixes : List String) : List String :=
  suffixes.map generateId

lemma generateId_injective : Function.Injective generateId := by
  intro a b h
  have hd : ("queue_" ++ a).data = ("queue_" ++ b).data := by
    unfold generateId at h
    rw [h]
  simp [String.data_append] at hd
  exact String.ext hd

lemma processPass_fst_map (exec : QueueItem → Except String Unit)
    (q : List QueueItem) : (processPass exec q).1 = q.map (runItem exec) := by
  induction q with
  | nil => rfl
  | cons a t ih => simp [processPass, ih]

lemma processQueue_run (auth : Bool) (exec : QueueItem → Except String Unit)
    (now : Nat) (s : ModuleState) (hp : s.isProcessing = false)
    (ha : auth = true) (hq : getQueue s.store ≠ []) :
    processQueue auth exec now s
      = (ProcessResult.done (processPass exec (getQueue s.store)).2.1
           (processPass exec (getQueue s.store)).2.2
           ((sweep now (processPass exec (getQueue s.store)).1).filter
              (fun item => item.status = Status.pending)).length,
         { s with
             store := saveQueue (sweep now (processPass exec (getQueue s.store)).1) s.store,
             isProcessing := false }) := by
  unfold processQueue
  have hg : (s.isProcessing || !auth) = false := by rw [hp, ha]; rfl
  rw [hg]
  have hl : ¬ (getQueue s.store).length = 0 := by
    intro h0
    exact hq (List.length_eq_zero.mp h0)
  simp only [Bool.false_eq_true, if_false]
  rw [if_neg hl]

/-- Claim C1 is refuted by the code: `failed` is not terminal.  The loop at
queueManager.js:119-145 skips only `completed` items, so an item with
`status = 'failed'` and `attempts = 3` is attempted again on the next run:
with a failing executor its `attempts` reaches 4 (the claim says it never
exceeds 3), and with a succeeding executor its status even becomes
`completed`. -/
theorem processQueue_reattempts_failed_item :
    ((processQueue true (fun _ => Except.error "network down") 0
        (idleState [exhaustedItem])).2.store.contents
      = some [{ exhaustedItem with attempts := 4, lastError := some "network down" }]) ∧
    ((processQueue true (fun _ => Except.ok ()) 0
        (idleState [exhaustedItem])).2.store.contents
      = some [{ exhaustedItem with status := Status.completed }]) := by
  exact ⟨rfl, rfl⟩

/-- Claim C2 as stated is false: when the Durable Store write fails,
`queueOperation` does not propagate any error.  `saveQueue`
(queueManager.js:85-91) catches the `setItem` exception and only logs it,
so the enqueue still returns its success response while the collection in
the store is left without the new item. -/
theorem queueOperation_write_failure_reports_success :
    ((queueOperation "reports" "create" "payload" 42 "abcdefghi"
        (fullStoreState [])).1.success = true) ∧
    ((queueOperation "reports" "create" "payload" 42 "abcdefghi"
        (fullStoreState [])).2.store.contents = some []) := by
  exact ⟨rfl, rfl⟩

/-- Claim C2 amended: when the Durable Store write fails, the error is
swallowed inside `saveQueue`; `queueOperation` still returns the
success-shaped response and the persisted collection is left unchanged —
the intent is lost silently, with no error surfaced to the caller. -/
theorem queueOperation_write_failure_swallowed (resource operation data : String)
    (now : Nat) (suffix : String) (s : ModuleState)
    (h : s.store.writeFails = true) :
    (queueOperation resource operation data now suffix s).1.success = true ∧
    (queueOperation resource operation data now suffix s).2.store.contents
      = s.store.contents := by
  refine ⟨rfl, ?_⟩
  simp only [queueOperation, saveQueue, setupNetworkListener, h, if_true]
  split <;> rfl

/-- Witness for the amended C2 theorem at a concrete failing store. -/
theorem queueOperation_write_failure_swallowed_witness :
    (queueOperation "reports" "create" "p" 7 "abcdefghi"
        (fullStoreState [])).1.success = true ∧
    (queueOperation "reports" "create" "p" 7 "abcdefghi"
        (fullStoreState [])).2.store.contents = (fullStoreState []).store.contents :=
  queueOperation_write_failure_swallowed "reports" "create" "p" 7 "abcdefghi"
    (fullStoreState []) rfl

/-- Claim C5: a processing run requested while `isProcessing` is true or
while the caller is not authenticated returns the skipped result and
leaves the whole module state — in particular the persisted queue, every
item's fields, and the item count — unmodified. -/
theorem processQueue_skip_leaves_state (auth : Bool)
    (exec : QueueItem → Except String Unit) (now : Nat) (s : ModuleState)
    (h : s.isProcessing = true ∨ auth = false) :
    processQueue auth exec now s = (ProcessResult.skipped, s) := by
  unfold processQueue
  rcases h with h | h <;> simp [h]

/-- Witness for C5: an unauthenticated run on a concrete one-item state. -/
theorem processQueue_skip_leaves_state_witness :
    processQueue false (fun _ => Except.ok ()) 99 (idleState [retriedItem])
      = (ProcessResult.skipped, idleState [retriedItem]) :=
  processQueue_skip_leaves_state false (fun _ => Except.ok ()) 99
    (idleState [retriedItem]) (Or.inr rfl)

/-- Claim C9: any invocation of `processQueue` that begins with the
in-progress flag clear ends with it clear, on every exit path (skip on
missing authentication, empty queue, and full run) — the `finally` clause
of queueManager.js:165-167 — so no single run leaves the processor
permanently reporting skipped. -/
theorem processQueue_clears_flag (auth : Bool)
    (exec : QueueItem → Except String Unit) (now : Nat) (s : ModuleState)
    (h : s.isProcessing = false) :
    (processQueue auth exec now s).2.isProcessing = false := by
  unfold processQueue
  split
  · exact h
  · dsimp only
    split <;> rfl

/-- Witness for C9 on a concrete full run. -/
theorem processQueue_clears_flag_witness :
    (processQueue true (fun _ => Except.error "boom") 0
        (idleState [freshItem])).2.isProcessing = false :=
  processQueue_clears_flag true (fun _ => Except.error "boom") 0
    (idleState [freshItem]) rfl

/-- Claim C10: every call to `queueOperation` returns an object with
`success: true` and `offline: true` that embeds the newly created
QueueItem under its `queuedOperation` field (queueManager.js:54-60); the
caller sees a success-shaped response although nothing remote happened. -/
theorem queueOperation_returns_success_wrapper (resource operation data : String)
    (now : Nat) (suffix : String) (s : ModuleState) :
    (queueOperation resource operation data now suffix s).1.success = true ∧
    (queueOperation resource operation data now suffix s).1.offline = true ∧
    (queueOperation resource operation data now suffix s).1.queuedOperation
      = { id := generateId suffix, resource := resource, operation := operation,
          data := data, timestamp := now, attempts := 0,
          status := Status.pending, lastError := none } := by
  exact ⟨rfl, rfl, rfl⟩

/-- Claim C3 as stated is false in its last conjunct: the created QueueItem
is not the operation's return value.  The value returned by
`queueOperation` is the wrapper object
`{success, id, message, queuedOperation, offline}` built at
queueManager.js:54-60, which differs from the queued item object. -/
theorem queueOperation_return_differs_from_item :
    responseToJs (queueOperation "reports" "create" "p" 0 "abcdefghi"
        (idleState [])).1
      ≠ queueItemToJs (queueOperation "reports" "create" "p" 0 "abcdefghi"
          (idleState [])).1.queuedOperation := by
  decide

/-- Claim C3 amended: `queueOperation` creates a QueueItem with status
`pending`, `attempts = 0`, the generated id and the current timestamp,
appends it at the end of the collection, persists the full collection
(provided the store write succeeds), and returns a success response that
embeds the created item under `queuedOperation` — the response, not the
item itself, is the return value. -/
theorem queueOperation_creates_appends_persists (resource operation data : String)
    (now : Nat) (suffix : String) (s : ModuleState)
    (h : s.store.writeFails = false) :
    (queueOperation resource operation data now suffix s).1.queuedOperation
      = { id := generateId suffix, resource := resource, operation := operation,
          data := data, timestamp := now, attempts := 0,
          status := Status.pending, lastError := none } ∧
    (queueOperation resource operation data now suffix s).2.store.contents
      = some (getQueue s.store ++
          [(queueOperation resource operation data now suffix s).1.queuedOperation]) ∧
    (queueOperation resource operation data now suffix s).1.success = true ∧
    (queueOperation resource operation data now suffix s).1.offline = true := by
  refine ⟨rfl, ?_, rfl, rfl⟩
  simp only [queueOperation, saveQueue, setupNetworkListener, h]
  split <;> rfl

/-- Witness for the amended C3 theorem on a concrete one-item state. -/
theorem queueOperation_creates_appends_persists_witness :
    (queueOperation "reports" "create" "p" 3 "abcdefghi"
        (idleState [retriedItem])).1.queuedOperation
      = { id := generateId "abcdefghi", resource := "reports",
          operation := "create", data := "p", timestamp := 3, attempts := 0,
          status := Status.pending, lastError := none } ∧
    (queueOperation "reports" "create" "p" 3 "abcdefghi"
        (idleState [retriedItem])).2.store.contents
      = some (getQueue (idleState [retriedItem]).store ++
          [(queueOperation "reports" "create" "p" 3 "abcdefghi"
              (idleState [retriedItem])).1.queuedOperation]) ∧
    (queueOperation "reports" "create" "p" 3 "abcdefghi"
        (idleState [retriedItem])).1.success = true ∧
    (queueOperation "reports" "create" "p" 3 "abcdefghi"
        (idleState [retriedItem])).1.offline = true :=
  queueOperation_creates_appends_persists "reports" "create" "p" 3 "abcdefghi"
    (idleState [retriedItem]) rfl

/-- Claim C4 as stated is false: id generation gives no uniqueness
guarantee.  `generateId` only prefixes the 9-character suffix drawn from
`Math.random()`, and nothing prevents two draws from producing the same
suffix, in which case the two items receive identical ids. -/
theorem generatedIds_can_collide :
    ¬ (generatedIds ["abcdefghi", "abcdefghi"]).Nodup := by
  decide

/-- Claim C4 amended: ids are pairwise distinct exactly when the random
9-character suffixes drawn over the store lifetime are pairwise distinct;
`generateId` itself is injective, so a collision can come only from the
random source repeating a suffix. -/
theorem generatedIds_nodup_of_suffix_nodup (suffixes : List String)
    (h : suffixes.Nodup) : (generatedIds suffixes).Nodup := by
  unfold generatedIds
  exact h.map generateId_injective

/-- Witness for the amended C4 theorem on two distinct suffixes. -/
theorem generatedIds_nodup_of_suffix_nodup_witness :
    (generatedIds ["abcdefghi", "123456789"]).Nodup :=
  generatedIds_nodup_of_suffix_nodup ["abcdefghi", "123456789"] (by decide)

/-- Claim C6: for a run that actually starts on a non-empty queue and whose
store write succeeds, the persisted collection is exactly the post-pass
queue filtered by the sweep predicate; the predicate drops precisely the
completed items at least 24 hours old at sweep time, keeps every pending
or failed item and every recent completed one, and membership in the
swept queue is membership in the input plus retention. -/
theorem processQueue_sweep_exact (auth : Bool)
    (exec : QueueItem → Except String Unit) (now : Nat) (s : ModuleState)
    (item : QueueItem) (q : List QueueItem)
    (hp : s.isProcessing = false) (ha : auth = true)
    (hw : s.store.writeFails = false) (hq : getQueue s.store ≠ []) :
    ((processQueue auth exec now s).2.store.contents
      = some (sweep now (processPass exec (getQueue s.store)).1)) ∧
    (sweepKeep now item = false ↔
      (item.status = Status.completed ∧
       (item.timestamp : Int) ≤ (now : Int) - 86400000)) ∧
    (sweepKeep now item = true ↔
      (item.status = Status.pending ∨ item.status = Status.failed ∨
       (item.status = Status.completed ∧
        (now : Int) - 86400000 < (item.timestamp : Int)))) ∧
    (item ∈ sweep now q ↔ (item ∈ q ∧ sweepKeep now item = true)) := by
  refine ⟨?_, ?_, ?_, ?_⟩
  · rw [processQueue_run auth exec now s hp ha hq]
    simp [saveQueue, hw]
  · cases hst : item.status <;>
      simp [sweepKeep, hst, Int.not_lt]
  · cases hst : item.status <;>
      simp [sweepKeep, hst]
  · simp [sweep, List.mem_filter]

/-- Witness for C6: a concrete run over a stale completed item and a
pending one, checked at a sweep time 25 hours later. -/
theorem processQueue_sweep_exact_witness :
    ((processQueue true (fun _ => Except.error "boom") 90000000
        (idleState [staleItem, retriedItem])).2.store.contents
      = some (sweep 90000000
          (processPass (fun _ => Except.error "boom")
            (getQueue (idleState [staleItem, retriedItem]).store)).1)) ∧
    (sweepKeep 90000000 staleItem = false ↔
      (staleItem.status = Status.completed ∧
       (staleItem.timestamp : Int) ≤ (90000000 : Int) - 86400000)) ∧
    (sweepKeep 90000000 staleItem = true ↔
      (staleItem.status = Status.pending ∨ staleItem.status = Status.failed ∨
       (staleItem.status = Status.completed ∧
        (90000000 : Int) - 86400000 < (staleItem.timestamp : Int)))) ∧
    (staleItem ∈ sweep 90000000 [staleItem, retriedItem] ↔
      (staleItem ∈ [staleItem, retriedItem] ∧
       sweepKeep 90000000 staleItem = true)) :=
  processQueue_sweep_exact true (fun _ => Except.error "boom") 90000000
    (idleState [staleItem, retriedItem]) staleItem [staleItem, retriedItem]
    rfl rfl rfl (by decide)

/-- Claim C7: within a run items are visited in insertion order — the
post-pass queue is the positionwise image of the input queue — and the
persisted collection is an order-preserving sublist of it obtained by the
sweep alone, which can only drop completed items, so a still-pending item
keeps its position relative to items enqueued before it across runs. -/
theorem processQueue_preserves_order (auth : Bool)
    (exec : QueueItem → Except String Unit) (now : Nat) (s : ModuleState)
    (x : QueueItem) (hp : s.isProcessing = false) (ha : auth = true)
    (hw : s.store.writeFails = false) (hq : getQueue s.store ≠ [])
    (hx : sweepKeep now x = false) :
    ((processPass exec (getQueue s.store)).1
      = (getQueue s.store).map (runItem exec)) ∧
    ((processQueue auth exec now s).2.store.contents
      = some (((getQueue s.store).map (runItem exec)).filter (sweepKeep now))) ∧
    (((getQueue s.store).map (runItem exec)).filter (sweepKeep now)).Sublist
      ((getQueue s.store).map (runItem exec)) ∧
    x.status = Status.completed := by
  refine ⟨processPass_fst_map exec (getQueue s.store), ?_, List.filter_sublist _, ?_⟩
  · rw [processQueue_run auth exec now s hp ha hq]
    simp [saveQueue, hw, sweep, processPass_fst_map]
  · by_contra hne
    have hk : sweepKeep now x = true := by
      unfold sweepKeep
      simp [hne]
    rw [hk] at hx
    exact absurd hx (by decide)

/-- Witness for C7 on a concrete two-item queue with an expired completed
item. -/
theorem processQueue_preserves_order_witness :
    ((processPass (fun _ => Except.ok ())
        (getQueue (idleState [staleItem, retriedItem]).store)).1
      = (getQueue (idleState [staleItem, retriedItem]).store).map
          (runItem (fun _ => Except.ok ()))) ∧
    ((processQueue true (fun _ => Except.ok ()) 90000000
        (idleState [staleItem, retriedItem])).2.store.contents
      = some (((getQueue (idleState [staleItem, retriedItem]).store).map
          (runItem (fun _ => Except.ok ()))).filter (sweepKeep 90000000))) ∧
    (((getQueue (idleState [staleItem, retriedItem]).store).map
        (runItem (fun _ => Except.ok ()))).filter (sweepKeep 90000000)).Sublist
      ((getQueue (idleState [staleItem, retriedItem]).store).map
        (runItem (fun _ => Except.ok ()))) ∧
    staleItem.status = Status.completed :=
  processQueue_preserves_order true (fun _ => Except.ok ()) 90000000
    (idleState [staleItem, retriedItem]) staleItem rfl rfl rfl (by decide)
    (by decide)

/-- Claim C8: one item's executor outcome never aborts the batch loop — the
post-pass queue is the image of the whole input queue — and on a
non-completed item a failing executor increments `attempts`, records the
error message in `lastError` and sets `failed` only at the attempt
ceiling, while a succeeding executor marks the item `completed`. -/
theorem processPass_isolates_failures (exec : QueueItem → Except String Unit)
    (a b : QueueItem) (msg : String) (q : List QueueItem)
    (hna : a.status ≠ Status.completed) (hnb : b.status ≠ Status.completed)
    (hok : exec a = Except.ok ()) (herr : exec b = Except.error msg) :
    runItem exec a = { a with status := Status.completed } ∧
    runItem exec b
      = { b with attempts := b.attempts + 1, lastError := some msg,
                 status := if 3 ≤ b.attempts + 1 then Status.failed else b.status } ∧
    (processPass exec q).1 = q.map (runItem exec) := by
  refine ⟨?_, ?_, processPass_fst_map exec q⟩
  · unfold runItem
    rw [if_neg hna, hok]
  · unfold runItem
    rw [if_neg hnb, herr]

/-- Witness for C8: a two-item queue in which the first item succeeds and
the second fails, processed by one pass. -/
theorem processPass_isolates_failures_witness :
    runItem (fun i => if i.id = "queue_c" then Except.ok () else Except.error "boom")
        freshItem
      = { freshItem with status := Status.completed } ∧
    runItem (fun i => if i.id = "queue_c" then Except.ok () else Except.error "boom")
        retriedItem
      = { retriedItem with attempts := retriedItem.attempts + 1,
                           lastError := some "boom",
                           status := if 3 ≤ retriedItem.attempts + 1 then Status.failed
                                     else retriedItem.status } ∧
    (processPass (fun i => if i.id = "queue_c" then Except.ok () else Except.error "boom")
        [freshItem, retriedItem]).1
      = [freshItem, retriedItem].map
          (runItem (fun i => if i.id = "queue_c" then Except.ok ()
            else Except.error "boom")) :=
  processPass_isolates_failures
    (fun i => if i.id = "queue_c" then Except.ok () else Except.error "boom")
    freshItem retriedItem "boom" [freshItem, retriedItem]
    (by decide) (by decide) rfl rfl

end GreenSentinel
